import Mathlib

/-!
Verification of the weather-tracker core pipeline.

The definitions below are a shallow embedding, into Lean, of the
JavaScript sources of the repository:

* `utils/searchDetector.js` — input sanitizer and search-type classifier;
* `services/weatherApi.js` — provider client (HTTP error taxonomy) and the
  normalizing transforms, as reproduced in full inside
  `tests/unit/CurrentWeather.test.js`;
* `stores/weather.js` — the Pinia weather store (coordinator), also
  reproduced in full inside `tests/unit/CurrentWeather.test.js`.

JavaScript strings are modelled as `String`/`List Char`; JS `undefined`
or missing object fields become `Option`; a thrown exception becomes the
`Except`/`Option` error case.  Regular expressions from the source are
unfolded into explicit decidable pattern functions over `List Char`.
-/

namespace WeatherTracker

/-! ## JS string primitives used by the sources -/

/-- ASCII whitespace recognised by the JS `\s` class and `String.trim`
(the sources only ever meet ASCII whitespace). -/
def jsIsWs (c : Char) : Bool :=
  c = ' ' || c = '\t' || c = '\n' || c = '\r' ||
  c = Char.ofNat 11 || c = Char.ofNat 12

/-- Remove trailing whitespace: a character is kept unless it is
whitespace and everything after it trims to nothing. -/
def trimRightWs : List Char → List Char
  | [] => []
  | c :: rest =>
      let r := trimRightWs rest
      if r.isEmpty && jsIsWs c then [] else c :: r

/-- Left-and-right trim of a character list, as in JS `String.trim`. -/
def jsTrimList (l : List Char) : List Char :=
  trimRightWs (l.dropWhile jsIsWs)

/-- JS `String.trim` on strings. -/
def jsTrim (s : String) : String :=
  ⟨jsTrimList s.data⟩

/-! ## `utils/searchDetector.js` -/

/-- The four values of the `SEARCH_TYPES` constant object. -/
inductive SearchType where
  | zip_code
  | city
  | region
  | unknown
deriving DecidableEq, Repr

/-- The result shape `{ type, value }` returned by `detectSearchType`. -/
structure SearchResult where
  type : SearchType
  value : String
deriving DecidableEq, Repr

/-- `PATTERNS.US_ZIP = /^\d{5}(-\d{4})?$/`. -/
def usZip : List Char → Bool
  | [a, b, c, d, e] =>
      a.isDigit && b.isDigit && c.isDigit && d.isDigit && e.isDigit
  | [a, b, c, d, e, h, f, g, i, j] =>
      a.isDigit && b.isDigit && c.isDigit && d.isDigit && e.isDigit &&
      h = '-' && f.isDigit && g.isDigit && i.isDigit && j.isDigit
  | _ => false

/-- `PATTERNS.CANADIAN_POSTAL = /^[A-Za-z]\d[A-Za-z][ -]?\d[A-Za-z]\d$/`. -/
def canadianPostal : List Char → Bool
  | [l1, d1, l2, d2, l3, d3] =>
      l1.isAlpha && d1.isDigit && l2.isAlpha &&
      d2.isDigit && l3.isAlpha && d3.isDigit
  | [l1, d1, l2, sep, d2, l3, d3] =>
      l1.isAlpha && d1.isDigit && l2.isAlpha && (sep = ' ' || sep = '-') &&
      d2.isDigit && l3.isAlpha && d3.isDigit
  | _ => false

/-- Tail `\d[A-Za-z]{2}$` of the UK postcode pattern. -/
def ukTail : List Char → Bool
  | [d, a, b] => d.isDigit && a.isAlpha && b.isAlpha
  | _ => false

/-- `[ ]?\d[A-Za-z]{2}$` of the UK postcode pattern. -/
def ukOptSpace (l : List Char) : Bool :=
  ukTail l ||
    (match l with
     | ' ' :: r => ukTail r
     | _ => false)

/-- `[A-Za-z\d]?[ ]?\d[A-Za-z]{2}$` of the UK postcode pattern. -/
def ukAfterDigit (l : List Char) : Bool :=
  ukOptSpace l ||
    (match l with
     | c :: r => (c.isAlpha || c.isDigit) && ukOptSpace r
     | _ => false)

/-- `\d[A-Za-z\d]?[ ]?\d[A-Za-z]{2}$` of the UK postcode pattern. -/
def ukAfterLetters : List Char → Bool
  | d :: r => d.isDigit && ukAfterDigit r
  | _ => false

/-- `PATTERNS.UK_POSTCODE = /^[A-Za-z]{1,2}\d[A-Za-z\d]?[ ]?\d[A-Za-z]{2}$/`. -/
def ukPostcode : List Char → Bool
  | c1 :: rest =>
      c1.isAlpha &&
        (ukAfterLetters rest ||
          (match rest with
           | c2 :: r2 => c2.isAlpha && ukAfterLetters r2
           | _ => false))
  | [] => false

/-- `PATTERNS.NUMERIC_POSTAL = /^\d{4,6}$/`. -/
def numericPostal (l : List Char) : Bool :=
  decide (4 ≤ l.length) && decide (l.length ≤ 6) && l.all (·.isDigit)

/-- The `isZipCode` helper: any of the four postal patterns. -/
def isZipCode (s : String) : Bool :=
  usZip s.data || canadianPostal s.data || ukPostcode s.data || numericPostal s.data

/-- The `US_STATES` array, transcribed verbatim. -/
def US_STATES : List String :=
  ["alabama", "al", "alaska", "ak", "arizona", "az", "arkansas", "ar",
   "california", "ca", "colorado", "co", "connecticut", "ct", "delaware", "de",
   "florida", "fl", "georgia", "ga", "hawaii", "hi", "idaho", "id",
   "illinois", "il", "indiana", "in", "iowa", "ia", "kansas", "ks",
   "kentucky", "ky", "louisiana", "la", "maine", "me", "maryland", "md",
   "massachusetts", "ma", "michigan", "mi", "minnesota", "mn", "mississippi", "ms",
   "missouri", "mo", "montana", "mt", "nebraska", "ne", "nevada", "nv",
   "new hampshire", "nh", "new jersey", "nj", "new mexico", "nm", "new york", "ny",
   "north carolina", "nc", "north dakota", "nd", "ohio", "oh", "oklahoma", "ok",
   "oregon", "or", "pennsylvania", "pa", "rhode island", "ri", "south carolina", "sc",
   "south dakota", "sd", "tennessee", "tn", "texas", "tx", "utah", "ut",
   "vermont", "vt", "virginia", "va", "washington", "wa", "west virginia", "wv",
   "wisconsin", "wi", "wyoming", "wy", "district of columbia", "dc"]

/-- The `COUNTRIES` array, transcribed verbatim. -/
def COUNTRIES : List String :=
  ["united states", "usa", "us", "canada", "mexico", "united kingdom", "uk",
   "england", "scotland", "wales", "ireland", "france", "germany", "italy",
   "spain", "portugal", "netherlands", "belgium", "switzerland", "austria",
   "australia", "new zealand", "japan", "china", "india", "brazil", "argentina",
   "south africa", "egypt", "russia", "sweden", "norway", "denmark", "finland",
   "poland", "czech republic", "greece", "turkey", "south korea", "singapore",
   "thailand", "vietnam", "philippines", "indonesia", "malaysia"]

/-- JS `toLowerCase`, character by character (the sources only meet
ASCII letters). -/
def jsToLower (s : String) : String :=
  ⟨s.data.map Char.toLower⟩

/-- The `isRegion` helper: case-insensitive membership in the two lists. -/
def isRegion (s : String) : Bool :=
  US_STATES.contains (jsToLower s) || COUNTRIES.contains (jsToLower s)

/-- `detectSearchType` restricted to string input (the non-string branches
of the source return `unknown` before reaching the classifier). -/
def detectSearchType (input : String) : SearchResult :=
  let trimmed := jsTrim input
  if trimmed = "" then ⟨SearchType.unknown, ""⟩
  else if isZipCode trimmed then ⟨SearchType.zip_code, trimmed⟩
  else if isRegion trimmed then ⟨SearchType.region, trimmed⟩
  else ⟨SearchType.city, trimmed⟩

/-- Characters removed by the second `replace` in `sanitizeSearchInput`:
the class `[<>'"`;\\]`. -/
def bannedChar (c : Char) : Bool :=
  c = '<' || c = '>' || c = '\'' || c = '\"' ||
  c = Char.ofNat 96 || c = ';' || c = '\\'

/-- Drop characters up to and including the first `>`. -/
def dropThroughGt : List Char → List Char
  | [] => []
  | c :: rest => if c = '>' then rest else dropThroughGt rest

/-- `.replace(/<[^>]*>/g, '')`: a match starts at a `<` that has a later
`>` and extends through the first such `>`. -/
def stripTags : List Char → List Char
  | [] => []
  | c :: rest =>
      if c = '<' then
        if '>' ∈ rest then stripTags (dropThroughGt rest)
        else c :: stripTags rest
      else c :: stripTags rest
termination_by l => l.length
decreasing_by
  all_goals simp_wf
  have h : ∀ l : List Char, (dropThroughGt l).length ≤ l.length := by
    intro l
    induction l with
    | nil => simp [dropThroughGt]
    | cons a as ih =>
        simp only [dropThroughGt]
        split
        · simp
        · exact Nat.le_succ_of_le ih
  exact Nat.lt_succ_of_le (h rest)

/-- `.replace(/\s+/g, ' ')` with the run state made explicit: the first
whitespace character of a run emits one space, the following ones are
skipped (`inRun` says whether the previous character was whitespace). -/
def collapseAux : Bool → List Char → List Char
  | _, [] => []
  | inRun, c :: rest =>
      if jsIsWs c then
        if inRun then collapseAux true rest
        else ' ' :: collapseAux true rest
      else c :: collapseAux false rest

/-- `.replace(/\s+/g, ' ')`: each maximal whitespace run becomes one space. -/
def collapseWs (l : List Char) : List Char :=
  collapseAux false l

/-- Two adjacent characters are never both whitespace (the invariant
established by whitespace collapsing). -/
def wsSep (a b : Char) : Prop :=
  ¬(jsIsWs a = true ∧ jsIsWs b = true)

/-- The whole `sanitizeSearchInput` pipeline on character lists. -/
def sanitizeList (l : List Char) : List Char :=
  let s2 := (stripTags l).filter (fun c => !bannedChar c)
  let s4 := jsTrimList (collapseWs s2)
  if 100 < s4.length then jsTrimList (s4.take 100) else s4

/-- `sanitizeSearchInput` restricted to string input (null, undefined and
non-string inputs are coerced before this pipeline in the source). -/
def sanitizeSearchInput (s : String) : String :=
  ⟨sanitizeList s.data⟩

/-! ## `services/weatherApi.js` — error taxonomy and provider client -/

/-- The five values of the `type` field of `WeatherApiError`. -/
inductive ErrorType where
  | network
  | not_found
  | api_error
  | validation
  | config
deriving DecidableEq, Repr

/-- The `WeatherApiError` class (`originalError` is carried only for
diagnostics in the source and is omitted here). -/
structure WeatherApiError where
  message : String
  type : ErrorType
deriving DecidableEq, Repr

def configErrorMsg : String :=
  "Unable to connect to weather service. Please check configuration."

def locationRequiredMsg : String :=
  "Location is required and must be a valid string."

def notFoundMsg : String :=
  "We couldn't find that location. Please try a different city, zip code, or region."

def serverErrorMsg : String :=
  "Weather service is temporarily unavailable. Please try again later."

def genericErrorMsg : String :=
  "Something went wrong. Please try again."

def invalidResponseMsg : String :=
  "Invalid response from weather service."

def networkErrorMsg : String :=
  "Unable to fetch weather data. Please check your internet connection and try again."

/-- `{ text, icon }` condition object of the provider schema. -/
structure RawCondition where
  text : String
  icon : String
deriving DecidableEq, Repr

/-- One element of a `forecastday[].hour` array. -/
structure RawHour where
  time : String
  temp_f : Int
  condition : RawCondition
  chance_of_rain : Option Int
  chance_of_snow : Option Int
  wind_mph : Int
  humidity : Int
deriving DecidableEq, Repr

/-- The `day` object of a `forecastday[]` element. -/
structure RawDayInfo where
  maxtemp_f : Int
  mintemp_f : Int
  condition : RawCondition
  daily_chance_of_rain : Option Int
  daily_chance_of_snow : Option Int
deriving DecidableEq, Repr

/-- One `forecastday[]` element; `hour` is `none` when the field is
missing or not an array. -/
structure RawDay where
  date : String
  day : RawDayInfo
  hour : Option (List RawHour)
deriving DecidableEq, Repr

/-- The `forecast` section; `forecastday` is `none` when missing/null. -/
structure RawForecast where
  forecastday : Option (List RawDay)
deriving DecidableEq, Repr

/-- The `location` section of a provider response. -/
structure RawLocation where
  name : String
  region : String
  country : String
  tz_id : String
  localtime : String
deriving DecidableEq, Repr

/-- The `current` section of a provider response. -/
structure RawCurrent where
  temp_f : Int
  feelslike_f : Int
  condition : RawCondition
  humidity : Int
  wind_mph : Int
  wind_dir : String
  last_updated : String
deriving DecidableEq, Repr

/-- A parsed response body before the three-section shape check; each
section is `none` when missing or null. -/
structure RawBody where
  location : Option RawLocation
  current : Option RawCurrent
  forecast : Option RawForecast
deriving DecidableEq, Repr

/-- A provider response that passed the shape validation, as consumed by
the transform functions. -/
structure RawData where
  location : RawLocation
  current : RawCurrent
  forecast : RawForecast
deriving DecidableEq, Repr

/-- Outcome of `response.json()`: a parse failure, or a parsed value
(`parsed none` models a JSON `null` body, which is falsy). -/
inductive JsonBody where
  | parseFail
  | parsed (body : Option RawBody)
deriving DecidableEq, Repr

/-- Outcome of the `fetch` call: transport-level rejection, or an HTTP
response with a status and a body. -/
inductive FetchOutcome where
  | netFail
  | response (status : Nat) (body : JsonBody)
deriving DecidableEq, Repr

/-- The non-2xx branch of `fetchWeatherData` in the service: maps an HTTP
status to the thrown `WeatherApiError`. -/
def statusError (status : Nat) : WeatherApiError :=
  if status = 400 || status = 404 then ⟨notFoundMsg, ErrorType.not_found⟩
  else if status = 401 || status = 403 then ⟨configErrorMsg, ErrorType.config⟩
  else if 500 ≤ status then ⟨serverErrorMsg, ErrorType.api_error⟩
  else ⟨genericErrorMsg, ErrorType.api_error⟩

/-- `validateConfig`: the API key is absent, empty, the placeholder, or
whitespace-only. -/
def validateConfig (apiKey : Option String) : Except WeatherApiError Unit :=
  match apiKey with
  | none => Except.error ⟨configErrorMsg, ErrorType.config⟩
  | some k =>
      if k = "" || k = "your_api_key_here" || jsTrim k = "" then
        Except.error ⟨configErrorMsg, ErrorType.config⟩
      else Except.ok ()

/-- `fetchWeatherData` of the service layer, over an explicit fetch
outcome: config check, input check, HTTP status mapping, JSON parse
check, and the three-section shape check.  A transport rejection is
mapped to a `network` error by the `catch` block of the source. -/
def serviceFetchWeatherData (apiKey : Option String) (location : Option String)
    (outcome : FetchOutcome) : Except WeatherApiError RawBody :=
  match validateConfig apiKey with
  | Except.error e => Except.error e
  | Except.ok _ =>
      match location with
      | none => Except.error ⟨locationRequiredMsg, ErrorType.validation⟩
      | some loc =>
          if loc = "" || jsTrim loc = "" then
            Except.error ⟨locationRequiredMsg, ErrorType.validation⟩
          else
            match outcome with
            | FetchOutcome.netFail =>
                Except.error ⟨networkErrorMsg, ErrorType.network⟩
            | FetchOutcome.response status body =>
                if 200 ≤ status ∧ status ≤ 299 then
                  match body with
                  | JsonBody.parseFail =>
                      Except.error ⟨invalidResponseMsg, ErrorType.validation⟩
                  | JsonBody.parsed none =>
                      Except.error ⟨invalidResponseMsg, ErrorType.validation⟩
                  | JsonBody.parsed (some b) =>
                      if b.location.isNone || b.current.isNone || b.forecast.isNone then
                        Except.error ⟨invalidResponseMsg, ErrorType.validation⟩
                      else Except.ok b
                else Except.error (statusError status)

/-! ## `services/weatherApi.js` — normalizing transforms -/

/-- Normalized current conditions, per `transformCurrentWeather`. -/
structure CurrentWeather where
  temperature : Int
  feelsLike : Int
  condition : String
  conditionIcon : String
  humidity : Int
  windSpeed : Int
  windDirection : String
  lastUpdated : String
deriving DecidableEq, Repr

/-- Normalized hourly entry, per `transformHourlyForecast`. -/
structure HourlyEntry where
  time : String
  temperature : Int
  condition : String
  conditionIcon : String
  precipitationChance : Int
  windSpeed : Int
  humidity : Int
deriving DecidableEq, Repr

/-- Normalized daily entry, per `transformDailyForecast`. -/
structure DailyEntry where
  date : String
  highTemp : Int
  lowTemp : Int
  condition : String
  conditionIcon : String
  precipitationChance : Int
deriving DecidableEq, Repr

/-- Normalized location record, per `transformLocation`. -/
structure LocationInfo where
  city : String
  region : String
  country : String
  timezone : String
  localtime : String
deriving DecidableEq, Repr

/-- JS `v || fallback` for an optional number: a present non-zero value
wins, a missing or zero (falsy) value yields the fallback. -/
def truthyOr (v : Option Int) (fallback : Int) : Int :=
  match v with
  | some n => if n = 0 then fallback else n
  | none => fallback

/-- The precipitation collapsing expression `rain || snow || 0`. -/
def collapseChance (rain snow : Option Int) : Int :=
  truthyOr rain (truthyOr snow 0)

/-- Spec-side reading of the snow fallback: the snow chance if present
and truthy, else 0.  Stated from the spec words for comparison with the
code-side `collapseChance`. -/
def specSnowChance : Option Int → Int
  | some s => if s ≠ 0 then s else 0
  | none => 0

/-- Spec-side precipitation rule: the rain chance if present and truthy,
otherwise the snow chance if present and truthy, otherwise 0.  Stated
from the spec words for comparison with the code-side `collapseChance`. -/
def specPrecipChance : Option Int → Option Int → Int
  | some r, s => if r ≠ 0 then r else specSnowChance s
  | none, s => specSnowChance s

/-- `transformCurrentWeather`. -/
def transformCurrentWeather (data : RawData) : CurrentWeather :=
  { temperature := data.current.temp_f
    feelsLike := data.current.feelslike_f
    condition := data.current.condition.text
    conditionIcon := data.current.condition.icon
    humidity := data.current.humidity
    windSpeed := data.current.wind_mph
    windDirection := data.current.wind_dir
    lastUpdated := data.current.last_updated }

/-- The per-hour record built inside the `forEach` of
`transformHourlyForecast`. -/
def transformHour (h : RawHour) : HourlyEntry :=
  { time := h.time
    temperature := h.temp_f
    condition := h.condition.text
    conditionIcon := h.condition.icon
    precipitationChance := collapseChance h.chance_of_rain h.chance_of_snow
    windSpeed := h.wind_mph
    humidity := h.humidity }

/-- The flattening loop of `transformHourlyForecast`: every day's `hour`
array (when present), in day order. -/
def flattenHourly (data : RawData) : List HourlyEntry :=
  match data.forecast.forecastday with
  | none => []
  | some days =>
      days.flatMap fun d =>
        match d.hour with
        | some hs => hs.map transformHour
        | none => []

/-- Digit-prefix value used by `jsParseInt`; `none` when no digit leads. -/
def digitsVal (l : List Char) : Option Nat :=
  let ds := l.takeWhile (·.isDigit)
  if ds.isEmpty then none
  else some (ds.foldl (fun a c => 10 * a + (c.toNat - '0'.toNat)) 0)

/-- JS `<` on strings: lexicographic comparison of code units. -/
def jsStrLtList : List Char → List Char → Bool
  | [], [] => false
  | [], _ :: _ => true
  | _ :: _, [] => false
  | a :: as, b :: bs =>
      if a.toNat < b.toNat then true
      else if b.toNat < a.toNat then false
      else jsStrLtList as bs

/-- JS `a < b` for strings. -/
def jsStrLt (a b : String) : Bool :=
  jsStrLtList a.data b.data

/-- JS `String.split` on a one-character separator, as a structural
function on the character list; `acc` holds the current chunk reversed. -/
def splitCharAux (sep : Char) : List Char → List Char → List (List Char)
  | [], acc => [acc.reverse]
  | c :: rest, acc =>
      if c = sep then acc.reverse :: splitCharAux sep rest []
      else splitCharAux sep rest (c :: acc)

/-- JS `s.split(sep)` for a one-character separator string. -/
def jsSplit (sep : Char) (s : String) : List String :=
  (splitCharAux sep s.data []).map String.mk

/-- JS `parseInt` in base 10 (`none` models `NaN`). -/
def jsParseInt (s : String) : Option Int :=
  match s.data.dropWhile jsIsWs with
  | '-' :: r => (digitsVal r).map (fun n => -(n : Int))
  | '+' :: r => (digitsVal r).map (fun n => (n : Int))
  | r => (digitsVal r).map (fun n => (n : Int))

/-- The filter callback of `transformHourlyForecast`.  `none` models the
`TypeError` thrown when `time` has no space (indexing `[1]` of the split
yields `undefined`).  A `NaN` parsed hour compares `false`. -/
def hourKeep (currentHour : Int) (currentDate : String) (e : HourlyEntry) : Option Bool :=
  match jsSplit ' ' e.time with
  | hourDate :: t :: _ =>
      let hn := jsParseInt ((jsSplit ':' t).headD "")
      if hourDate = currentDate then
        some (match hn with
              | some h => decide (currentHour ≤ h)
              | none => false)
      else some (jsStrLt currentDate hourDate)
  | _ => none

/-- `Array.prototype.filter` with a callback that can throw: the first
`none` aborts the whole call. -/
def filterCrash {α : Type} (p : α → Option Bool) : List α → Option (List α)
  | [] => some []
  | a :: as =>
      match p a with
      | none => none
      | some b => (filterCrash p as).map (fun r => if b then a :: r else r)

/-- `transformHourlyForecast`, with the caller clock (`now.getHours()`
and the `YYYY-MM-DD` part of `now.toISOString()`) passed explicitly. -/
def transformHourlyForecast (currentHour : Int) (currentDate : String)
    (data : RawData) : Option (List HourlyEntry) :=
  let hourly := flattenHourly data
  if hourly.length ≤ 24 then some hourly
  else (filterCrash (hourKeep currentHour currentDate) hourly).map (List.take 24)

/-- Whether an entry's `time` string is well-formed for the windowing
filter: it has a space-separated second component whose leading
colon-separated field parses as a number. -/
def hourlyTimeParses (e : HourlyEntry) : Bool :=
  match jsSplit ' ' e.time with
  | _ :: t :: _ => (jsParseInt ((jsSplit ':' t).headD "")).isSome
  | _ => false

/-- The date component of an entry's `time` (before the space). -/
def entryDate (e : HourlyEntry) : String :=
  (jsSplit ' ' e.time).headD ""

/-- The parsed hour component of an entry's `time` (after the space,
before the colon). -/
def entryHour (e : HourlyEntry) : Option Int :=
  match jsSplit ' ' e.time with
  | _ :: t :: _ => jsParseInt ((jsSplit ':' t).headD "")
  | _ => none

/-- The windowing retention rule as the spec words it: keep an entry
whose date is strictly later than today, or whose date equals today and
whose hour is ≥ the current hour. -/
def keepSpec (currentHour : Int) (currentDate : String) (e : HourlyEntry) : Bool :=
  jsStrLt currentDate (entryDate e) ||
    (decide (entryDate e = currentDate) &&
      (match entryHour e with
       | some h => decide (currentHour ≤ h)
       | none => false))

/-- The per-day record built inside the `map` of `transformDailyForecast`. -/
def transformDay (d : RawDay) : DailyEntry :=
  { date := d.date
    highTemp := d.day.maxtemp_f
    lowTemp := d.day.mintemp_f
    condition := d.day.condition.text
    conditionIcon := d.day.condition.icon
    precipitationChance := collapseChance d.day.daily_chance_of_rain d.day.daily_chance_of_snow }

/-- `transformDailyForecast`. -/
def transformDailyForecast (data : RawData) : List DailyEntry :=
  match data.forecast.forecastday with
  | none => []
  | some days => days.map transformDay

/-- `transformLocation`. -/
def transformLocation (data : RawData) : LocationInfo :=
  { city := data.location.name
    region := data.location.region
    country := data.location.country
    timezone := data.location.tz_id
    localtime := data.location.localtime }

/-! ## `stores/weather.js` — the weather store (coordinator) -/

/-- The store state created by `state()`. -/
structure StoreState where
  currentWeather : Option CurrentWeather
  hourlyForecast : List HourlyEntry
  dailyForecast : List DailyEntry
  location : Option LocationInfo
  isLoading : Bool
  error : Option String
  lastUpdated : Option Int
deriving DecidableEq, Repr

/-- The durable key-value storage holding the single key
`weather_last_location`; `available = false` models a throwing
`localStorage` (private browsing). -/
structure LocalStorage where
  available : Bool
  lastLocation : Option String
deriving DecidableEq, Repr

/-- `saveLastLocation`: a write failure is swallowed, leaving storage
unchanged. -/
def saveLastLocation (st : LocalStorage) (loc : String) : LocalStorage :=
  if st.available then { st with lastLocation := some loc } else st

/-- An error caught by the store action: a `WeatherApiError`
(`instanceof` succeeds) or any other thrown value. -/
inductive JsError where
  | typed (e : WeatherApiError)
  | other (msg : String)
deriving DecidableEq, Repr

/-- The message stored in `error` by the `catch` block of the store. -/
def storeErrorMessage : JsError → String
  | JsError.typed e => e.message
  | JsError.other _ => genericErrorMsg

/-- The store action `fetchWeatherData`, over the settled results of the
three `Promise.all` legs (`getCurrentWeather`, `getHourlyForecast`,
`getDailyForecast`).  Returns the post-action state, the storage, and
whether the persisted last-location key was written.  `Promise.all`
rejects with the first rejection, so the error branches inspect results
in leg order. -/
def storeFetchWeatherData (s : StoreState) (storage : LocalStorage) (now : Int)
    (query : String)
    (r1 : Except JsError (CurrentWeather × LocationInfo))
    (r2 : Except JsError (List HourlyEntry × LocationInfo))
    (r3 : Except JsError (List DailyEntry × LocationInfo)) :
    StoreState × LocalStorage × Bool :=
  let s1 := { s with isLoading := true, error := none }
  let fail := fun (e : JsError) =>
    ({ s1 with error := some (storeErrorMessage e), isLoading := false },
     storage, false)
  match r1, r2, r3 with
  | Except.ok c, Except.ok h, Except.ok d =>
      ({ s1 with
          currentWeather := some c.1
          hourlyForecast := h.1
          dailyForecast := d.1
          location := some c.2
          lastUpdated := some now
          isLoading := false },
       saveLastLocation storage query, storage.available)
  | Except.error e, _, _ => fail e
  | Except.ok _, Except.error e, _ => fail e
  | Except.ok _, Except.ok _, Except.error e => fail e

/-- The getter `formattedLastUpdated`, as a pure function of the state
field and the wall clock (`Date.now()`).  A falsy `lastUpdated` (null or
the number 0) yields `"Never"`; `Math.floor` on a negative quotient is
floor division. -/
def formattedLastUpdated (lastUpdated : Option Int) (now : Int) : String :=
  match lastUpdated with
  | none => "Never"
  | some t =>
      if t = 0 then "Never"
      else
        let diffMs := now - t
        let diffSec := Int.fdiv diffMs 1000
        let diffMin := Int.fdiv diffSec 60
        let diffHour := Int.fdiv diffMin 60
        if diffSec < 30 then "Just now"
        else if diffSec < 60 then toString diffSec ++ " seconds ago"
        else if diffMin = 1 then "1 minute ago"
        else if diffMin < 60 then toString diffMin ++ " minutes ago"
        else if diffHour = 1 then "1 hour ago"
        else if diffHour < 24 then toString diffHour ++ " hours ago"
        else
          let diffDays := Int.fdiv diffHour 24
          if diffDays = 1 then "1 day ago" else toString diffDays ++ " days ago"

/-! ## Sample values used by witness theorems -/

/-- A concrete current-conditions record. -/
def sampleCurrent : CurrentWeather :=
  ⟨72, 70, "Sunny", "//cdn/icon.png", 45, 8, "NW", "2024-01-15 10:30"⟩

/-- A concrete location record. -/
def sampleLocationInfo : LocationInfo :=
  ⟨"San Francisco", "California", "USA", "America/Los_Angeles", "2024-01-15 10:35"⟩

/-- A concrete pre-fetch store state holding last-known-good data. -/
def sampleState : StoreState :=
  ⟨some sampleCurrent, [], [], some sampleLocationInfo, false, none, some 5⟩

/-- A concrete storage state with an available backend. -/
def sampleStorage : LocalStorage :=
  ⟨true, some "San Francisco"⟩

/-- A concrete raw hour whose date component "b" is later than the
caller date "a" used in the windowing witnesses. -/
def wHour : RawHour :=
  ⟨"b 1:00", 70, ⟨"Sunny", "i"⟩, some 0, none, 5, 50⟩

/-- A concrete raw day-info record. -/
def wDayInfo : RawDayInfo :=
  ⟨75, 60, ⟨"Sunny", "i"⟩, some 0, none⟩

/-- A concrete raw response with 25 flattened hourly entries. -/
def wData25 : RawData :=
  ⟨⟨"C", "R", "K", "tz", "lt"⟩, ⟨70, 69, ⟨"Sunny", "i"⟩, 50, 5, "N", "t"⟩,
   ⟨some [⟨"b", wDayInfo, some (List.replicate 25 wHour)⟩]⟩⟩

/-- A concrete raw response with 2 flattened hourly entries. -/
def wData2 : RawData :=
  ⟨⟨"C", "R", "K", "tz", "lt"⟩, ⟨70, 69, ⟨"Sunny", "i"⟩, 50, 5, "N", "t"⟩,
   ⟨some [⟨"b", wDayInfo, some (List.replicate 2 wHour)⟩]⟩⟩

/-! ## Theorems -/

/-! ### Character and whitespace helper lemmas -/

theorem uint32_le_iff_toNat {a b : UInt32} : a ≤ b ↔ a.toNat ≤ b.toNat := Iff.rfl

theorem isAlpha_eq_false_of_isDigit {c : Char} (h : c.isDigit = true) :
    c.isAlpha = false := by
  simp [Char.isDigit, Char.isAlpha, Char.isUpper, Char.isLower,
    uint32_le_iff_toNat, UInt32.size] at *
  omega

theorem toLower_eq_self_of_isDigit {c : Char} (h : c.isDigit = true) :
    Char.toLower c = c := by
  simp [Char.isDigit, uint32_le_iff_toNat, UInt32.size] at h
  simp [Char.toLower, Char.toNat]
  omega

theorem jsIsWs_eq_false_of_isDigit {c : Char} (h : c.isDigit = true) :
    jsIsWs c = false := by
  by_contra hcon
  rw [Bool.not_eq_false, jsIsWs] at hcon
  simp at hcon
  rcases hcon with ((((rfl | rfl) | rfl) | rfl) | rfl) | rfl <;> exact absurd h (by decide)

theorem dropWhile_ws_eq_self {l : List Char}
    (h : ∀ c, l.head? = some c → jsIsWs c = false) : l.dropWhile jsIsWs = l := by
  cases l with
  | nil => rfl
  | cons a as => simp [List.dropWhile_cons, h a rfl]

theorem head?_dropWhile_ws (l : List Char) :
    ∀ c, (l.dropWhile jsIsWs).head? = some c → jsIsWs c = false := by
  induction l with
  | nil => intro c hc; simp at hc
  | cons a as ih =>
      intro c hc
      by_cases hw : jsIsWs a = true
      · rw [List.dropWhile_cons, if_pos hw] at hc
        exact ih c hc
      · rw [List.dropWhile_cons, if_neg hw] at hc
        simp only [List.head?_cons, Option.some.injEq] at hc
        rw [← hc]
        exact Bool.not_eq_true _ ▸ hw

theorem trimRightWs_cons (c : Char) (rest : List Char) :
    trimRightWs (c :: rest) =
      if ((trimRightWs rest).isEmpty && jsIsWs c) then [] else c :: trimRightWs rest :=
  rfl

theorem head?_trimRightWs {l : List Char} {c : Char}
    (h : (trimRightWs l).head? = some c) : l.head? = some c := by
  cases l with
  | nil => simp [trimRightWs] at h
  | cons a as =>
      rw [trimRightWs_cons] at h
      split at h
      · simp at h
      · simp only [List.head?_cons, Option.some.injEq] at h ⊢
        exact h

theorem lastNotWs_trimRightWs (l : List Char) :
    ∀ c, (trimRightWs l).getLast? = some c → jsIsWs c = false := by
  induction l with
  | nil => intro c hc; simp [trimRightWs] at hc
  | cons a as ih =>
      intro c hc
      rw [trimRightWs_cons] at hc
      split at hc
      · simp at hc
      · rename_i hcond
        cases h2 : trimRightWs as with
        | nil =>
            rw [h2] at hc hcond
            simp at hc hcond
            rw [← hc]
            exact Bool.not_eq_true _ ▸ hcond
        | cons x xs =>
            rw [h2, List.getLast?_cons_cons] at hc
            exact ih c (h2 ▸ hc)

theorem trimRightWs_eq_self {l : List Char}
    (h : ∀ c, l.getLast? = some c → jsIsWs c = false) : trimRightWs l = l := by
  induction l with
  | nil => rfl
  | cons a as ih =>
      cases has : as with
      | nil =>
          subst has
          have hw : jsIsWs a = false := h a rfl
          simp [trimRightWs_cons, trimRightWs, hw]
      | cons b bs =>
          subst has
          have h2 : ∀ c, (b :: bs).getLast? = some c → jsIsWs c = false := by
            intro c hc
            exact h c (by rw [List.getLast?_cons_cons]; exact hc)
          rw [trimRightWs_cons, ih h2]
          simp

theorem headNotWs_jsTrimList (l : List Char) :
    ∀ c, (jsTrimList l).head? = some c → jsIsWs c = false := by
  intro c hc
  exact head?_dropWhile_ws l c (head?_trimRightWs hc)

theorem jsTrimList_idem (l : List Char) : jsTrimList (jsTrimList l) = jsTrimList l := by
  show trimRightWs ((jsTrimList l).dropWhile jsIsWs) = jsTrimList l
  rw [dropWhile_ws_eq_self (headNotWs_jsTrimList l)]
  exact trimRightWs_eq_self (lastNotWs_trimRightWs _)

theorem jsTrimList_eq_self_of_no_ws {l : List Char}
    (h : ∀ c ∈ l, jsIsWs c = false) : jsTrimList l = l := by
  show trimRightWs (l.dropWhile jsIsWs) = l
  rw [dropWhile_ws_eq_self (fun c hc => h c (List.mem_of_mem_head? (by rw [hc]; simp)))]
  exact trimRightWs_eq_self
    (fun c hc => h c (List.mem_of_mem_getLast? (by rw [hc]; simp)))

theorem jsTrim_idem (s : String) : jsTrim (jsTrim s) = jsTrim s := by
  show String.mk (jsTrimList (jsTrimList s.data)) = String.mk (jsTrimList s.data)
  rw [jsTrimList_idem]

/-! ### Sanitizer helper lemmas -/

theorem collapseAux_ws_true (a : Char) (as : List Char) (hw : jsIsWs a = true) :
    collapseAux true (a :: as) = collapseAux true as := by
  simp [collapseAux, hw]

theorem collapseAux_ws_false (a : Char) (as : List Char) (hw : jsIsWs a = true) :
    collapseAux false (a :: as) = ' ' :: collapseAux true as := by
  simp [collapseAux, hw]

theorem collapseAux_not_ws (a : Char) (as : List Char) (b : Bool) (hw : ¬(jsIsWs a = true)) :
    collapseAux b (a :: as) = a :: collapseAux false as := by
  cases b <;> simp [collapseAux, hw]

theorem collapseAux_mem {l : List Char} {b : Bool} {c : Char} (h : c ∈ collapseAux b l) :
    c = ' ' ∨ c ∈ l := by
  induction l generalizing b with
  | nil => simp [collapseAux] at h
  | cons a as ih =>
      by_cases hw : jsIsWs a = true
      · cases b with
        | true =>
            rw [collapseAux_ws_true a as hw] at h
            rcases ih h with h1 | h1
            · exact Or.inl h1
            · exact Or.inr (List.mem_cons_of_mem _ h1)
        | false =>
            rw [collapseAux_ws_false a as hw] at h
            rcases List.mem_cons.mp h with h1 | h1
            · exact Or.inl h1
            · rcases ih h1 with h2 | h2
              · exact Or.inl h2
              · exact Or.inr (List.mem_cons_of_mem _ h2)
      · rw [collapseAux_not_ws a as b hw] at h
        rcases List.mem_cons.mp h with h1 | h1
        · exact Or.inr (h1 ▸ List.mem_cons_self a as)
        · rcases ih h1 with h2 | h2
          · exact Or.inl h2
          · exact Or.inr (List.mem_cons_of_mem _ h2)

theorem collapseAux_ws_is_space {l : List Char} {b : Bool} {c : Char}
    (hmem : c ∈ collapseAux b l) (hws : jsIsWs c = true) : c = ' ' := by
  induction l generalizing b with
  | nil => simp [collapseAux] at hmem
  | cons a as ih =>
      by_cases hw : jsIsWs a = true
      · cases b with
        | true =>
            rw [collapseAux_ws_true a as hw] at hmem
            exact ih hmem
        | false =>
            rw [collapseAux_ws_false a as hw] at hmem
            rcases List.mem_cons.mp hmem with h1 | h1
            · exact h1
            · exact ih h1
      · rw [collapseAux_not_ws a as b hw] at hmem
        rcases List.mem_cons.mp hmem with h1 | h1
        · exact absurd (h1 ▸ hws) hw
        · exact ih h1

theorem collapseAux_true_head (l : List Char) :
    ∀ c, (collapseAux true l).head? = some c → jsIsWs c = false := by
  induction l with
  | nil => intro c hc; simp [collapseAux] at hc
  | cons a as ih =>
      intro c hc
      by_cases hw : jsIsWs a = true
      · rw [collapseAux_ws_true a as hw] at hc
        exact ih c hc
      · rw [collapseAux_not_ws a as true hw] at hc
        simp only [List.head?_cons, Option.some.injEq] at hc
        rw [← hc]
        exact Bool.not_eq_true _ ▸ hw

theorem collapseAux_chain (l : List Char) : ∀ b, List.Chain' wsSep (collapseAux b l) := by
  induction l with
  | nil => intro b; simp [collapseAux]
  | cons a as ih =>
      intro b
      by_cases hw : jsIsWs a = true
      · cases b with
        | true =>
            rw [collapseAux_ws_true a as hw]
            exact ih true
        | false =>
            rw [collapseAux_ws_false a as hw]
            rw [List.chain'_cons']
            constructor
            · intro c hc
              rintro ⟨h1, h2⟩
              have := collapseAux_true_head as c (Option.mem_def.mp hc)
              rw [this] at h2
              exact Bool.noConfusion h2
            · exact ih true
      · rw [collapseAux_not_ws a as b hw]
        rw [List.chain'_cons']
        refine ⟨?_, ih false⟩
        intro c hc
        rintro ⟨h1, h2⟩
        exact hw h1

theorem collapseAux_eq_self {l : List Char}
    (hclean : ∀ c ∈ l, jsIsWs c = true → c = ' ')
    (hchain : List.Chain' wsSep l) :
    collapseAux false l = l ∧
      ((∀ c, l.head? = some c → jsIsWs c = false) → collapseAux true l = l) := by
  induction l with
  | nil => exact ⟨rfl, fun _ => rfl⟩
  | cons a as ih =>
      have hcleanas : ∀ c ∈ as, jsIsWs c = true → c = ' ' :=
        fun c hc => hclean c (List.mem_cons_of_mem _ hc)
      rw [List.chain'_cons'] at hchain
      obtain ⟨hhead, hchainas⟩ := hchain
      by_cases hw : jsIsWs a = true
      · have ha : a = ' ' := hclean a (List.mem_cons_self _ _) hw
        have hheadas : ∀ c, as.head? = some c → jsIsWs c = false := by
          intro c hc
          by_contra hcon
          rw [Bool.not_eq_false] at hcon
          exact hhead c (Option.mem_def.mpr hc) ⟨hw, hcon⟩
        have htrue : collapseAux true as = as := (ih hcleanas hchainas).2 hheadas
        constructor
        · rw [collapseAux_ws_false a as hw, htrue, ha]
        · intro hhd
          exact absurd hw (by simp [hhd a rfl])
      · have hfalse : collapseAux false as = as := (ih hcleanas hchainas).1
        constructor
        · rw [collapseAux_not_ws a as false hw, hfalse]
        · intro _
          rw [collapseAux_not_ws a as true hw, hfalse]

theorem stripTags_eq_self {l : List Char} (h : ¬('<' ∈ l)) : stripTags l = l := by
  induction l with
  | nil => simp [stripTags]
  | cons c rest ih =>
      have hc : ¬(c = '<') := fun he => h (he ▸ List.mem_cons_self _ _)
      have hrest : ¬('<' ∈ rest) := fun he => h (List.mem_cons_of_mem _ he)
      rw [show stripTags (c :: rest) =
            if c = '<' then
              (if '>' ∈ rest then stripTags (dropThroughGt rest) else c :: stripTags rest)
            else c :: stripTags rest from by rw [stripTags]]
      rw [if_neg hc, ih hrest]

theorem trimRightWs_leads (l : List Char) : trimRightWs l <+: l := by
  induction l with
  | nil => simp [trimRightWs]
  | cons c rest ih =>
      rw [trimRightWs_cons]
      split
      · exact List.nil_prefix
      · exact List.cons_prefix_cons.mpr ⟨rfl, ih⟩

theorem jsTrimList_inside (l : List Char) : jsTrimList l <:+: l :=
  (trimRightWs_leads _).isInfix.trans (List.dropWhile_suffix _).isInfix

theorem lastNotWs_jsTrimList (l : List Char) :
    ∀ c, (jsTrimList l).getLast? = some c → jsIsWs c = false :=
  lastNotWs_trimRightWs _

theorem sanitizeList_eq (l : List Char) :
    sanitizeList l =
      if 100 < (jsTrimList (collapseAux false
          ((stripTags l).filter (fun c => !bannedChar c)))).length then
        jsTrimList ((jsTrimList (collapseAux false
          ((stripTags l).filter (fun c => !bannedChar c)))).take 100)
      else jsTrimList (collapseAux false
          ((stripTags l).filter (fun c => !bannedChar c))) :=
  rfl

theorem sanitizeList_facts (l : List Char) :
    (∀ c ∈ sanitizeList l, bannedChar c = false) ∧
    (∀ c ∈ sanitizeList l, jsIsWs c = true → c = ' ') ∧
    List.Chain' wsSep (sanitizeList l) ∧
    (∀ c, (sanitizeList l).head? = some c → jsIsWs c = false) ∧
    (∀ c, (sanitizeList l).getLast? = some c → jsIsWs c = false) ∧
    (sanitizeList l).length ≤ 100 := by
  have hs2banned : ∀ c ∈ (stripTags l).filter (fun c => !bannedChar c),
      bannedChar c = false := by
    intro c hc
    have := List.of_mem_filter hc
    simpa using this
  have hz1banned : ∀ c ∈ collapseAux false ((stripTags l).filter (fun c => !bannedChar c)),
      bannedChar c = false := by
    intro c hc
    rcases collapseAux_mem hc with rfl | hmem
    · decide
    · exact hs2banned c hmem
  have hz1clean : ∀ c ∈ collapseAux false ((stripTags l).filter (fun c => !bannedChar c)),
      jsIsWs c = true → c = ' ' :=
    fun c hc => collapseAux_ws_is_space hc
  have hz1chain := collapseAux_chain ((stripTags l).filter (fun c => !bannedChar c)) false
  rw [sanitizeList_eq]
  by_cases hlen :
      100 < (jsTrimList (collapseAux false ((stripTags l).filter (fun c => !bannedChar c)))).length
  · rw [if_pos hlen]
    have hinf : jsTrimList ((jsTrimList (collapseAux false
        ((stripTags l).filter (fun c => !bannedChar c)))).take 100) <:+:
        collapseAux false ((stripTags l).filter (fun c => !bannedChar c)) :=
      (jsTrimList_inside _).trans
        ((List.take_prefix _ _).isInfix.trans (jsTrimList_inside _))
    refine ⟨?_, ?_, ?_, headNotWs_jsTrimList _, lastNotWs_jsTrimList _, ?_⟩
    · intro c hc
      exact hz1banned c (hinf.subset hc)
    · intro c hc
      exact hz1clean c (hinf.subset hc)
    · exact hz1chain.infix hinf
    · calc (jsTrimList ((jsTrimList (collapseAux false
            ((stripTags l).filter (fun c => !bannedChar c)))).take 100)).length
          ≤ ((jsTrimList (collapseAux false
            ((stripTags l).filter (fun c => !bannedChar c)))).take 100).length :=
            (jsTrimList_inside _).length_le
        _ ≤ 100 := List.length_take_le _ _
  · rw [if_neg hlen]
    refine ⟨?_, ?_, ?_, headNotWs_jsTrimList _, lastNotWs_jsTrimList _, by omega⟩
    · intro c hc
      exact hz1banned c ((jsTrimList_inside _).subset hc)
    · intro c hc
      exact hz1clean c ((jsTrimList_inside _).subset hc)
    · exact hz1chain.infix (jsTrimList_inside _)

theorem sanitizeList_idem (l : List Char) :
    sanitizeList (sanitizeList l) = sanitizeList l := by
  obtain ⟨hban, hclean, hchain, hhead, hlast, hlen⟩ := sanitizeList_facts l
  have h1 : stripTags (sanitizeList l) = sanitizeList l :=
    stripTags_eq_self (fun hmem => absurd (hban '<' hmem) (by decide))
  have h2 : (sanitizeList l).filter (fun c => !bannedChar c) = sanitizeList l :=
    List.filter_eq_self.mpr (fun c hc => by simp [hban c hc])
  have h3 : collapseAux false (sanitizeList l) = sanitizeList l :=
    (collapseAux_eq_self hclean hchain).1
  have h4 : jsTrimList (sanitizeList l) = sanitizeList l := by
    show trimRightWs ((sanitizeList l).dropWhile jsIsWs) = sanitizeList l
    rw [dropWhile_ws_eq_self hhead]
    exact trimRightWs_eq_self hlast
  rw [sanitizeList_eq (sanitizeList l), h1, h2, h3, h4, if_neg (by omega)]

/-! ### Pattern refutation lemmas for all-digit inputs -/

theorem usZip_eq_false_of_digits {l : List Char}
    (hdig : ∀ c ∈ l, c.isDigit = true) (hlen : l.length ≤ 3 ∨ 7 ≤ l.length) :
    usZip l = false := by
  by_contra hcon
  rw [Bool.not_eq_false] at hcon
  unfold usZip at hcon
  split at hcon
  · simp at hlen
  · rename_i v1 v2 v3 v4 v5 v6 v7 v8 v9 v10
    simp only [Bool.and_eq_true, decide_eq_true_eq] at hcon
    have h6 : v6.isDigit = true := hdig v6 (by simp)
    rw [hcon.1.1.1.1.2] at h6
    exact absurd h6 (by decide)
  · simp at hcon

theorem canadianPostal_eq_false_of_digits {l : List Char}
    (hdig : ∀ c ∈ l, c.isDigit = true) : canadianPostal l = false := by
  by_contra hcon
  rw [Bool.not_eq_false] at hcon
  unfold canadianPostal at hcon
  split at hcon
  · rename_i v1 v2 v3 v4 v5 v6
    simp only [Bool.and_eq_true] at hcon
    have := isAlpha_eq_false_of_isDigit (hdig v1 (by simp))
    rw [this] at hcon
    simp at hcon
  · rename_i v1 v2 v3 v4 v5 v6 v7
    simp only [Bool.and_eq_true] at hcon
    have := isAlpha_eq_false_of_isDigit (hdig v1 (by simp))
    rw [this] at hcon
    simp at hcon
  · simp at hcon

theorem ukPostcode_eq_false_of_digits {l : List Char}
    (hdig : ∀ c ∈ l, c.isDigit = true) : ukPostcode l = false := by
  by_contra hcon
  rw [Bool.not_eq_false] at hcon
  unfold ukPostcode at hcon
  split at hcon
  · rename_i v1 rest
    simp only [Bool.and_eq_true] at hcon
    have := isAlpha_eq_false_of_isDigit (hdig v1 (by simp))
    rw [this] at hcon
    simp at hcon
  · simp at hcon

theorem numericPostal_eq_false_of_len {l : List Char}
    (hlen : l.length ≤ 3 ∨ 7 ≤ l.length) : numericPostal l = false := by
  rcases hlen with h | h
  · have hd : decide (4 ≤ l.length) = false := decide_eq_false (by omega)
    simp [numericPostal, hd]
  · have hd : decide (l.length ≤ 6) = false := decide_eq_false (by omega)
    simp [numericPostal, hd]

/-- C2: for every invocation of the store action `fetchWeatherData` and
every outcome of the three legs (all succeed, any combination of typed or
non-typed failures), the settled state has `isLoading = false`. -/
theorem store_fetch_clears_loading (s : StoreState) (storage : LocalStorage)
    (now : Int) (query : String)
    (r1 : Except JsError (CurrentWeather × LocationInfo))
    (r2 : Except JsError (List HourlyEntry × LocationInfo))
    (r3 : Except JsError (List DailyEntry × LocationInfo)) :
    (storeFetchWeatherData s storage now query r1 r2 r3).1.isLoading = false := by
  cases r1 <;> cases r2 <;> cases r3 <;> rfl

/-- C1: if any of the three provider legs fails, the store action leaves
`currentWeather`, `hourlyForecast`, `dailyForecast`, `location` and
`lastUpdated` at their pre-fetch values, updates only `error` (set) and
`isLoading` (false), and does not write the persisted last-location key. -/
theorem store_fetch_failure_preserves_state (s : StoreState) (storage : LocalStorage)
    (now : Int) (query : String)
    (r1 : Except JsError (CurrentWeather × LocationInfo))
    (r2 : Except JsError (List HourlyEntry × LocationInfo))
    (r3 : Except JsError (List DailyEntry × LocationInfo))
    (h : (∃ e, r1 = Except.error e) ∨ (∃ e, r2 = Except.error e) ∨
         (∃ e, r3 = Except.error e)) :
    (storeFetchWeatherData s storage now query r1 r2 r3).1.currentWeather = s.currentWeather ∧
    (storeFetchWeatherData s storage now query r1 r2 r3).1.hourlyForecast = s.hourlyForecast ∧
    (storeFetchWeatherData s storage now query r1 r2 r3).1.dailyForecast = s.dailyForecast ∧
    (storeFetchWeatherData s storage now query r1 r2 r3).1.location = s.location ∧
    (storeFetchWeatherData s storage now query r1 r2 r3).1.lastUpdated = s.lastUpdated ∧
    (storeFetchWeatherData s storage now query r1 r2 r3).1.isLoading = false ∧
    (storeFetchWeatherData s storage now query r1 r2 r3).1.error.isSome = true ∧
    (storeFetchWeatherData s storage now query r1 r2 r3).2.1 = storage ∧
    (storeFetchWeatherData s storage now query r1 r2 r3).2.2 = false := by
  cases r1 with
  | error e => simp [storeFetchWeatherData]
  | ok a =>
      cases r2 with
      | error e => simp [storeFetchWeatherData]
      | ok b =>
          cases r3 with
          | error e => simp [storeFetchWeatherData]
          | ok c =>
              rcases h with ⟨e, he⟩ | ⟨e, he⟩ | ⟨e, he⟩ <;> simp at he

/-- Witness for C1 at a concrete failing fetch: the hourly leg rejects
with a typed `not_found` error while the other two legs succeed. -/
theorem store_fetch_failure_preserves_state_witness :
    (storeFetchWeatherData sampleState sampleStorage 99 "Paris"
        (Except.ok (sampleCurrent, sampleLocationInfo))
        (Except.error (JsError.typed ⟨notFoundMsg, ErrorType.not_found⟩))
        (Except.ok ([], sampleLocationInfo))).1.currentWeather = sampleState.currentWeather ∧
    (storeFetchWeatherData sampleState sampleStorage 99 "Paris"
        (Except.ok (sampleCurrent, sampleLocationInfo))
        (Except.error (JsError.typed ⟨notFoundMsg, ErrorType.not_found⟩))
        (Except.ok ([], sampleLocationInfo))).1.hourlyForecast = sampleState.hourlyForecast ∧
    (storeFetchWeatherData sampleState sampleStorage 99 "Paris"
        (Except.ok (sampleCurrent, sampleLocationInfo))
        (Except.error (JsError.typed ⟨notFoundMsg, ErrorType.not_found⟩))
        (Except.ok ([], sampleLocationInfo))).1.dailyForecast = sampleState.dailyForecast ∧
    (storeFetchWeatherData sampleState sampleStorage 99 "Paris"
        (Except.ok (sampleCurrent, sampleLocationInfo))
        (Except.error (JsError.typed ⟨notFoundMsg, ErrorType.not_found⟩))
        (Except.ok ([], sampleLocationInfo))).1.location = sampleState.location ∧
    (storeFetchWeatherData sampleState sampleStorage 99 "Paris"
        (Except.ok (sampleCurrent, sampleLocationInfo))
        (Except.error (JsError.typed ⟨notFoundMsg, ErrorType.not_found⟩))
        (Except.ok ([], sampleLocationInfo))).1.lastUpdated = sampleState.lastUpdated ∧
    (storeFetchWeatherData sampleState sampleStorage 99 "Paris"
        (Except.ok (sampleCurrent, sampleLocationInfo))
        (Except.error (JsError.typed ⟨notFoundMsg, ErrorType.not_found⟩))
        (Except.ok ([], sampleLocationInfo))).1.isLoading = false ∧
    (storeFetchWeatherData sampleState sampleStorage 99 "Paris"
        (Except.ok (sampleCurrent, sampleLocationInfo))
        (Except.error (JsError.typed ⟨notFoundMsg, ErrorType.not_found⟩))
        (Except.ok ([], sampleLocationInfo))).1.error.isSome = true ∧
    (storeFetchWeatherData sampleState sampleStorage 99 "Paris"
        (Except.ok (sampleCurrent, sampleLocationInfo))
        (Except.error (JsError.typed ⟨notFoundMsg, ErrorType.not_found⟩))
        (Except.ok ([], sampleLocationInfo))).2.1 = sampleStorage ∧
    (storeFetchWeatherData sampleState sampleStorage 99 "Paris"
        (Except.ok (sampleCurrent, sampleLocationInfo))
        (Except.error (JsError.typed ⟨notFoundMsg, ErrorType.not_found⟩))
        (Except.ok ([], sampleLocationInfo))).2.2 = false :=
  store_fetch_failure_preserves_state sampleState sampleStorage 99 "Paris"
    (Except.ok (sampleCurrent, sampleLocationInfo))
    (Except.error (JsError.typed ⟨notFoundMsg, ErrorType.not_found⟩))
    (Except.ok ([], sampleLocationInfo))
    (Or.inr (Or.inl ⟨_, rfl⟩))

/-- C6: the normalized precipitation chance computed by the transforms
(the JS expression `rain || snow || 0`) agrees with the spec rule "rain
if present and truthy, else snow if present and truthy, else 0", both
transforms use it, and the three concrete cases of the spec hold. -/
theorem precipitation_collapsing :
    (∀ rain snow, collapseChance rain snow = specPrecipChance rain snow) ∧
    (∀ h : RawHour, (transformHour h).precipitationChance
        = collapseChance h.chance_of_rain h.chance_of_snow) ∧
    (∀ d : RawDay, (transformDay d).precipitationChance
        = collapseChance d.day.daily_chance_of_rain d.day.daily_chance_of_snow) ∧
    collapseChance (some 0) (some 80) = 80 ∧
    collapseChance (some 20) (some 0) = 20 ∧
    collapseChance none none = 0 := by
  refine ⟨?_, fun _ => rfl, fun _ => rfl, rfl, rfl, rfl⟩
  intro rain snow
  cases rain with
  | none =>
      cases snow with
      | none => rfl
      | some s =>
          by_cases hs : s = 0 <;>
            simp [collapseChance, specPrecipChance, specSnowChance, truthyOr, hs]
  | some r =>
      cases snow with
      | none =>
          by_cases hr : r = 0 <;>
            simp [collapseChance, specPrecipChance, specSnowChance, truthyOr, hr]
      | some s =>
          by_cases hr : r = 0 <;> by_cases hs : s = 0 <;>
            simp [collapseChance, specPrecipChance, specSnowChance, truthyOr, hr, hs]

/-- C7: for every HTTP response with a non-2xx status (given a valid
configuration and location, so the request is issued), the service
raises the `WeatherApiError` determined by the status: 400/404 →
`not_found` with the location-not-found message, 401/403 → `config`,
≥500 → `api_error` with the temporary-unavailability message, any other
non-2xx → `api_error` with the generic message. -/
theorem service_http_status_mapping (apiKey loc : String) (status : Nat) (body : JsonBody)
    (hkey : validateConfig (some apiKey) = Except.ok ())
    (hloc : (loc = "" || jsTrim loc = "") = false)
    (hstatus : ¬(200 ≤ status ∧ status ≤ 299)) :
    serviceFetchWeatherData (some apiKey) (some loc) (FetchOutcome.response status body)
      = Except.error (statusError status) ∧
    ((status = 400 ∨ status = 404) →
        statusError status = ⟨notFoundMsg, ErrorType.not_found⟩) ∧
    ((status = 401 ∨ status = 403) →
        statusError status = ⟨configErrorMsg, ErrorType.config⟩) ∧
    (500 ≤ status → statusError status = ⟨serverErrorMsg, ErrorType.api_error⟩) ∧
    (status ≠ 400 → status ≠ 404 → status ≠ 401 → status ≠ 403 → status < 500 →
        statusError status = ⟨genericErrorMsg, ErrorType.api_error⟩) := by
  refine ⟨?_, ?_, ?_, ?_, ?_⟩
  · unfold serviceFetchWeatherData
    rw [hkey]
    simp only [hloc, Bool.false_eq_true, if_false]
    rw [if_neg hstatus]
  · rintro (rfl | rfl) <;> rfl
  · rintro (rfl | rfl) <;> rfl
  · intro h5
    unfold statusError
    rw [if_neg (by simp; omega), if_neg (by simp; omega), if_pos h5]
  · intro h400 h404 h401 h403 h500
    unfold statusError
    rw [if_neg (by simp [h400, h404]), if_neg (by simp [h401, h403]), if_neg (by omega)]

/-- Witness for C7 at status 404 with a concrete key and location. -/
theorem service_http_status_mapping_witness :
    serviceFetchWeatherData (some "test_api_key") (some "Paris")
        (FetchOutcome.response 404 JsonBody.parseFail)
      = Except.error ⟨notFoundMsg, ErrorType.not_found⟩ := by
  have h := service_http_status_mapping "test_api_key" "Paris" 404 JsonBody.parseFail
    rfl rfl (by decide)
  rw [h.1, h.2.1 (Or.inr rfl)]

/-- C9: a non-null `lastUpdated` strictly in the future (relative to a
nonnegative wall clock) formats as "Just now": the signed difference in
seconds is negative, hence below the 30-second threshold. -/
theorem future_last_updated_just_now (t now : Int) (hnow : 0 ≤ now) (ht : now < t) :
    formattedLastUpdated (some t) now = "Just now" := by
  have ht0 : ¬(t = 0) := by omega
  have hneg : Int.fdiv (now - t) 1000 < 0 :=
    Int.fdiv_neg' (by omega) (by omega)
  simp only [formattedLastUpdated, if_neg ht0]
  rw [if_pos (lt_trans hneg (by norm_num))]

/-- Witness for C9: a timestamp one second in the future of epoch 0. -/
theorem future_last_updated_just_now_witness :
    formattedLastUpdated (some 1000) 0 = "Just now" :=
  future_last_updated_just_now 1000 0 (by decide) (by decide)

/-- C10: every purely numeric input of length 1–3 or ≥7 (which cannot
carry the hyphen of the 5+4 ZIP form) fails all four postal patterns and
the region lists, so `detectSearchType` classifies it as `city` with the
input itself as value. -/
theorem numeric_input_defaults_to_city (s : String)
    (hne : s.data ≠ [])
    (hdig : ∀ c ∈ s.data, c.isDigit = true)
    (hlen : s.data.length ≤ 3 ∨ 7 ≤ s.data.length) :
    detectSearchType s = ⟨SearchType.city, s⟩ := by
  have hws : ∀ c ∈ s.data, jsIsWs c = false :=
    fun c hc => jsIsWs_eq_false_of_isDigit (hdig c hc)
  have htrim : jsTrim s = s := by
    show String.mk (jsTrimList s.data) = s
    rw [jsTrimList_eq_self_of_no_ws hws]
  have hnem : ¬(s = "") := by
    intro h0
    subst h0
    exact hne rfl
  have hzip : isZipCode s = false := by
    unfold isZipCode
    rw [usZip_eq_false_of_digits hdig hlen, canadianPostal_eq_false_of_digits hdig,
        ukPostcode_eq_false_of_digits hdig, numericPostal_eq_false_of_len hlen]
    rfl
  have hlower : jsToLower s = s := by
    have hmap : s.data.map Char.toLower = s.data := by
      conv_rhs => rw [← List.map_id s.data]
      exact List.map_congr_left (fun x hx => toLower_eq_self_of_isDigit (hdig x hx))
    show String.mk (s.data.map Char.toLower) = s
    rw [hmap]
  have hreg : isRegion s = false := by
    have hsts : ∀ m ∈ US_STATES, m.data.any (fun c => !c.isDigit) = true := by decide
    have hcts : ∀ m ∈ COUNTRIES, m.data.any (fun c => !c.isDigit) = true := by decide
    by_contra hcon
    rw [Bool.not_eq_false] at hcon
    unfold isRegion at hcon
    rw [hlower] at hcon
    simp only [Bool.or_eq_true] at hcon
    have hnd : s.data.any (fun c => !c.isDigit) = true := by
      rcases hcon with h | h
      · exact hsts s (by rw [List.contains] at h; exact List.elem_iff.mp h)
      · exact hcts s (by rw [List.contains] at h; exact List.elem_iff.mp h)
    rw [List.any_eq_true] at hnd
    obtain ⟨c, hc, hcd⟩ := hnd
    simp only [Bool.not_eq_true'] at hcd
    exact absurd (hdig c hc) (by simp [hcd])
  simp only [detectSearchType, htrim]
  rw [if_neg hnem, if_neg (by simp [hzip]), if_neg (by simp [hreg])]

/-- C5: the sanitizer is idempotent — a second pass strips nothing (no
banned characters or tags survive the first), collapses nothing (all
whitespace is single interior spaces), trims nothing and never truncates
— and its output never exceeds 100 characters. -/
theorem sanitize_idempotent_and_bounded (s : String) :
    sanitizeSearchInput (sanitizeSearchInput s) = sanitizeSearchInput s ∧
    (sanitizeSearchInput s).length ≤ 100 := by
  constructor
  · show String.mk (sanitizeList (sanitizeList s.data)) = String.mk (sanitizeList s.data)
    rw [sanitizeList_idem]
  · show (sanitizeList s.data).length ≤ 100
    exact (sanitizeList_facts s.data).2.2.2.2.2

/-- Witness for C10 at the concrete inputs "123" and "1234567". -/
theorem numeric_input_defaults_to_city_witness :
    detectSearchType "123" = ⟨SearchType.city, "123"⟩ ∧
    detectSearchType "1234567" = ⟨SearchType.city, "1234567"⟩ :=
  ⟨numeric_input_defaults_to_city "123" (by decide) (by decide) (by decide),
   numeric_input_defaults_to_city "1234567" (by decide) (by decide) (by decide)⟩

/-- C8: the classifier is total with first-match-wins order — empty trim
→ `unknown`, then the postal patterns, then the region lists, then the
`city` default — every non-unknown result carries the non-empty trimmed
input as value, and the state name "New York" classifies as `region`. -/
theorem classifier_order_and_totality :
    (∀ s : String,
      (jsTrim s = "" → detectSearchType s = ⟨SearchType.unknown, ""⟩) ∧
      (jsTrim s ≠ "" → isZipCode (jsTrim s) = true →
          detectSearchType s = ⟨SearchType.zip_code, jsTrim s⟩) ∧
      (jsTrim s ≠ "" → isZipCode (jsTrim s) = false → isRegion (jsTrim s) = true →
          detectSearchType s = ⟨SearchType.region, jsTrim s⟩) ∧
      (jsTrim s ≠ "" → isZipCode (jsTrim s) = false → isRegion (jsTrim s) = false →
          detectSearchType s = ⟨SearchType.city, jsTrim s⟩) ∧
      ((detectSearchType s).type ≠ SearchType.unknown →
          (detectSearchType s).value = jsTrim s ∧
          (detectSearchType s).value ≠ "" ∧
          jsTrim (detectSearchType s).value = (detectSearchType s).value)) ∧
    detectSearchType "New York" = ⟨SearchType.region, "New York"⟩ := by
  constructor
  · intro s
    refine ⟨?_, ?_, ?_, ?_, ?_⟩
    · intro h0
      simp [detectSearchType, h0]
    · intro h0 hz
      simp only [detectSearchType]
      rw [if_neg h0, if_pos hz]
    · intro h0 hz hr
      simp only [detectSearchType]
      rw [if_neg h0, if_neg (by simp [hz]), if_pos hr]
    · intro h0 hz hr
      simp only [detectSearchType]
      rw [if_neg h0, if_neg (by simp [hz]), if_neg (by simp [hr])]
    · intro hne
      by_cases h0 : jsTrim s = ""
      · exfalso
        apply hne
        simp [detectSearchType, h0]
      · have hval : (detectSearchType s).value = jsTrim s := by
          simp only [detectSearchType]
          rw [if_neg h0]
          by_cases hz : isZipCode (jsTrim s) = true
          · rw [if_pos hz]
          · rw [if_neg hz]
            by_cases hr : isRegion (jsTrim s) = true
            · rw [if_pos hr]
            · rw [if_neg hr]
        exact ⟨hval, by rw [hval]; exact h0, by rw [hval]; exact jsTrim_idem s⟩
  · decide

/-! ### Windowing helper lemmas -/

theorem jsStrLtList_self (l : List Char) : jsStrLtList l l = false := by
  induction l with
  | nil => rfl
  | cons a as ih => simp [jsStrLtList, ih]

theorem jsStrLt_self (s : String) : jsStrLt s s = false :=
  jsStrLtList_self s.data

theorem hourKeep_eq_keepSpec {currentHour : Int} {currentDate : String}
    {e : HourlyEntry} (hp : hourlyTimeParses e = true) :
    hourKeep currentHour currentDate e = some (keepSpec currentHour currentDate e) := by
  unfold hourlyTimeParses at hp
  unfold hourKeep keepSpec entryDate entryHour
  cases hsp : jsSplit ' ' e.time with
  | nil => rw [hsp] at hp; simp at hp
  | cons d rest =>
      cases rest with
      | nil => rw [hsp] at hp; simp at hp
      | cons t rest2 =>
          rw [hsp] at hp
          replace hp : (jsParseInt ((jsSplit ':' t).headD "")).isSome = true := hp
          by_cases hd : d = currentDate
          · subst hd
            cases hn : jsParseInt ((jsSplit ':' t).headD "") with
            | none => rw [hn] at hp; simp at hp
            | some hv => simp [hn, jsStrLt_self]
          · simp [hd]

theorem filterCrash_eq_filter {α : Type} {p : α → Option Bool} {q : α → Bool}
    {l : List α} (h : ∀ a ∈ l, p a = some (q a)) :
    filterCrash p l = some (l.filter q) := by
  induction l with
  | nil => rfl
  | cons a as ih =>
      unfold filterCrash
      rw [h a (by simp), ih (fun x hx => h x (by simp [hx]))]
      cases hq : q a <;> simp [List.filter_cons, hq]

/-- C3: when the flattened hourly list has ≤24 entries the transform
returns it unmodified; when it has more than 24 entries (and the time
strings are well-formed) it keeps exactly the entries whose date is
strictly later than the caller's date, or equal to it with hour ≥ the
caller's hour, and returns the first 24 of that filtered list. -/
theorem hourly_windowing (currentHour : Int) (currentDate : String) (data : RawData) :
    ((flattenHourly data).length ≤ 24 →
        transformHourlyForecast currentHour currentDate data = some (flattenHourly data)) ∧
    ((∀ e ∈ flattenHourly data, hourlyTimeParses e = true) →
      24 < (flattenHourly data).length →
        transformHourlyForecast currentHour currentDate data =
          some (((flattenHourly data).filter
                  (keepSpec currentHour currentDate)).take 24)) := by
  constructor
  · intro h
    unfold transformHourlyForecast
    rw [if_pos h]
  · intro hp h
    unfold transformHourlyForecast
    rw [if_neg (by omega)]
    rw [filterCrash_eq_filter (fun e he => hourKeep_eq_keepSpec (hp e he))]
    rfl

/-- Witness for C3: a 25-entry flattened list is filtered and cut to 24,
and a 2-entry flattened list is returned unmodified. -/
theorem hourly_windowing_witness :
    transformHourlyForecast 0 "a" wData25 =
      some (((flattenHourly wData25).filter (keepSpec 0 "a")).take 24) ∧
    transformHourlyForecast 0 "a" wData2 = some (flattenHourly wData2) :=
  ⟨(hourly_windowing 0 "a" wData25).2 (by decide) (by decide),
   (hourly_windowing 0 "a" wData2).1 (by decide)⟩

/-- C4: whenever the transform returns, its result has at most 24
entries if the flattened input exceeded 24, and exactly the input length
otherwise. -/
theorem hourly_window_bound (currentHour : Int) (currentDate : String) (data : RawData)
    (l : List HourlyEntry)
    (h : transformHourlyForecast currentHour currentDate data = some l) :
    (24 < (flattenHourly data).length → l.length ≤ 24) ∧
    ((flattenHourly data).length ≤ 24 → l.length = (flattenHourly data).length) := by
  unfold transformHourlyForecast at h
  by_cases hle : (flattenHourly data).length ≤ 24
  · rw [if_pos hle] at h
    simp only [Option.some.injEq] at h
    subst h
    exact ⟨fun h24 => by omega, fun _ => rfl⟩
  · rw [if_neg hle] at h
    rw [Option.map_eq_some'] at h
    obtain ⟨ll, hfc, hlt⟩ := h
    subst hlt
    exact ⟨fun _ => List.length_take_le 24 ll, fun h24 => by omega⟩

/-- Witness for C4 on the 25-entry and 2-entry concrete inputs. -/
theorem hourly_window_bound_witness :
    (List.replicate 24 (transformHour wHour)).length ≤ 24 ∧
    (flattenHourly wData2).length = 2 := by
  have h25 : transformHourlyForecast 0 "a" wData25
      = some (List.replicate 24 (transformHour wHour)) := by decide
  have h2 : transformHourlyForecast 0 "a" wData2 = some (flattenHourly wData2) := by decide
  refine ⟨(hourly_window_bound 0 "a" wData25 _ h25).1 (by decide), ?_⟩
  rw [(hourly_window_bound 0 "a" wData2 _ h2).2 (by decide)]
  decide

/-- Witness for C8 at the concrete input "94102". -/
theorem classifier_order_and_totality_witness :
    detectSearchType "94102" = ⟨SearchType.zip_code, "94102"⟩ := by
  have h := (classifier_order_and_totality.1 "94102").2.1 (by decide) (by decide)
  rw [show jsTrim "94102" = "94102" from by decide] at h
  exact h

end WeatherTracker
